import Mathlib

/-!
Verification of the Telegram image-editing bot (repository
`Mraprguild8133/Telegramimageedit`) against its natural-language
specification.

The Python sources are shallowly embedded:

* `ai_apis.py` (`AIImageProcessor`): background removal/generation with
  remote-API fallback, resize, smart crop, format conversion, enhancement.
* `image_processor.py` (`SimpleImageProcessor`): local resize, crop,
  convert, enhance, mock background operations.
* `bot_simple.py`, `webhook_server.py`, `deepseek_python_20251015_f33cc7.py`:
  the callback routers and leaf action handlers.

Conventions of the embedding:

* Python `float` arithmetic on image dimensions is modelled by exact `ℚ`
  arithmetic; `int(x)` on a nonnegative value is `⌊x⌋`.
* Python `//` on nonnegative ints is `Int.fdiv`.
* The result of `PIL.Image.open` is passed in as `Option Img`:
  `none` models the call raising (missing or undecodable file).
* Remote HTTP calls are passed in as a `RemoteOutcome` oracle value.
* Fresh-name components (`datetime.now().strftime(...)`, `uuid4[:8]`) are
  passed in as oracle strings `ts`/`uid`.
* A function that lets a Python exception escape returns `Except.error`.
-/

namespace ImgBot

/-! ## Image data model -/

/-- PIL image modes occurring in the sources. -/
inductive Mode
  | RGB
  | RGBA
  | L
  | LA
  | P
  | CMYK
deriving DecidableEq

/-- One pixel, viewed through PIL's RGBA lens (channel values 0..255). -/
structure RGBAPx where
  r : ℕ
  g : ℕ
  b : ℕ
  a : ℕ
deriving DecidableEq

/-- An in-memory image: dimensions, PIL mode tag, and the row-major pixel
data in its RGBA view. -/
structure Img where
  width : ℕ
  height : ℕ
  mode : Mode
  data : List RGBAPx
deriving DecidableEq

/-- A small concrete image used by closed counterexample/witness theorems. -/
def demoImg : Img :=
  { width := 2, height := 2, mode := Mode.RGB,
    data := [⟨255, 255, 255, 255⟩, ⟨250, 250, 250, 255⟩,
             ⟨10, 20, 30, 255⟩, ⟨255, 255, 255, 255⟩] }

/-! ## Path helpers

`ai_apis.AIImageProcessor._generate_filename` / `os.path.join`, and
`image_processor.SimpleImageProcessor._get_output_path`. -/

/-- `os.path.join(a, b)` for the simple relative paths used here. -/
def pyJoin (a b : String) : String := a ++ "/" ++ b

/-- `AIImageProcessor._generate_filename(prefix, extension)`:
`f"{prefix}_{timestamp}_{unique_id}.{extension}"`. -/
def aiGenerateFilename (pfx ts uid ext : String) : String :=
  pfx ++ "_" ++ ts ++ "_" ++ uid ++ "." ++ ext

/-- Output path of an `AIImageProcessor` operation:
`os.path.join("processed", _generate_filename(...))`. -/
def aiOutputPath (pfx ts uid ext : String) : String :=
  pyJoin "processed" (aiGenerateFilename pfx ts uid ext)

/-- An input path as seen through `os.path.basename` / `os.path.splitext`:
`dirPart` is everything up to and including the final slash (possibly
empty), `stem` the basename without extension, `ext` the extension
(empty, or starting with a dot). -/
structure PyPath where
  dirPart : String
  stem : String
  ext : String
deriving DecidableEq

/-- The full path string a `PyPath` denotes. -/
def PyPath.render (p : PyPath) : String := p.dirPart ++ p.stem ++ p.ext

/-- `SimpleImageProcessor._get_output_path(input_path, suffix, extension)`:
`os.path.join("processed", f"{name}_{suffix}{new_ext}")`. -/
def simpleOutputPath (p : PyPath) (sfx : String) (extension : Option String) : String :=
  pyJoin "processed" (p.stem ++ "_" ++ sfx ++
    (match extension with
     | some e => "." ++ e
     | none => p.ext))

/-- Python `str.startswith`, on the character lists of the strings. -/
def strHasPfx (s p : String) : Bool := p.data.isPrefixOf s.data

/-- Python `str.lower()`, characterwise (the sources only lower ASCII
format names). -/
def strLower (s : String) : String := ⟨s.data.map Char.toLower⟩

/-! ## Remote API oracle -/

/-- Outcome of a `requests.post` call to a remote provider: HTTP 200 with
body bytes, a non-2xx status, or a raised exception (network error,
timeout, unreadable input file, ...). -/
inductive RemoteOutcome
  | success
  | httpError (code : ℕ)
  | exn
deriving DecidableEq

/-! ## `AIImageProcessor.remove_background_local` (ai_apis.py 69-138) -/

/-- `img.getpixel((x, y))` on the RGBA view (callers stay in range). -/
def getpixelD (img : Img) (x y : ℕ) : RGBAPx :=
  img.data.getD (y * img.width + x) ⟨0, 0, 0, 0⟩

/-- Corner-average background colour: the four corner pixels' RGB channels
averaged with integer division, `(255, 255, 255)` when taking a corner
pixel raises (degenerate image). -/
def localAvgBg (img : Img) : ℕ × ℕ × ℕ :=
  if img.width = 0 ∨ img.height = 0 then (255, 255, 255)
  else
    let c1 := getpixelD img 0 0
    let c2 := getpixelD img (img.width - 1) 0
    let c3 := getpixelD img 0 (img.height - 1)
    let c4 := getpixelD img (img.width - 1) (img.height - 1)
    ((c1.r + c2.r + c3.r + c4.r) / 4,
     (c1.g + c2.g + c3.g + c4.g) / 4,
     (c1.b + c2.b + c3.b + c4.b) / 4)

/-- Per-pixel matting step, threshold 40: a pixel within the threshold of
the background colour on all three channels becomes fully transparent,
any other pixel is kept. -/
def matPixel (avg : ℕ × ℕ × ℕ) (p : RGBAPx) : RGBAPx :=
  let rd := ((p.r : ℤ) - avg.1).natAbs
  let gd := ((p.g : ℤ) - avg.2.1).natAbs
  let bd := ((p.b : ℤ) - avg.2.2).natAbs
  if rd < 40 ∧ gd < 40 ∧ bd < 40 then ⟨p.r, p.g, p.b, 0⟩ else p

/-- `img.convert("RGBA")` at the level of this model: the pixel data is
already the RGBA view, so only the mode tag changes. -/
def toRGBA (img : Img) : Img :=
  if img.mode = Mode.RGBA then img else { img with mode := Mode.RGBA }

/-- `remove_background_local(input_path)`: open the image (an unreadable
input re-raises — the function's final `except ... raise`), convert to
RGBA, make near-background pixels transparent, save as PNG into
`processed/`, and return the new path (paired here with the written
image). -/
def remove_background_local (input : Option Img) (ts uid : String) :
    Except String (String × Img) :=
  match input with
  | none => .error "Image.open raised"
  | some img0 =>
    let img := toRGBA img0
    let avg := localAvgBg img
    let newData := img.data.map (matPixel avg)
    .ok (aiOutputPath "bg_removed_local" ts uid "png",
         { img with data := newData })

/-! ## `AIImageProcessor.remove_background_removebg` (ai_apis.py 30-67) -/

/-- `remove_background_removebg(input_path)`: with no API key, go straight
to the local fallback; with a key, POST to Remove.bg and on HTTP 200 save
the returned bytes, otherwise (non-2xx or exception) fall back to the
local method. -/
def remove_background_removebg (apiKey : Option String) (remote : RemoteOutcome)
    (input : Option Img) (ts uid : String) : Except String String :=
  match apiKey with
  | none =>
    match remove_background_local input ts uid with
    | .ok (p, _) => .ok p
    | .error e => .error e
  | some _ =>
    match remote with
    | .success => .ok (aiOutputPath "removebg" ts uid "png")
    | .httpError _ =>
      match remove_background_local input ts uid with
      | .ok (p, _) => .ok p
      | .error e => .error e
    | .exn =>
      match remove_background_local input ts uid with
      | .ok (p, _) => .ok p
      | .error e => .error e

/-- `Except` success test. -/
def exOk {ε α : Type} : Except ε α → Bool
  | .ok _ => true
  | .error _ => false

/-! ## `AIImageProcessor.generate_background_*` (ai_apis.py 140-261) -/

/-- How `generate_background_local` combines foreground and gradient:
`Image.alpha_composite` for RGBA inputs, `Image.blend(..., 0.8)`
otherwise. -/
inductive BgComposite
  | alphaComposite
  | blend
deriving DecidableEq

/-- `generate_background_local(input_path)`: open the input (re-raising on
failure), synthesize a gradient background of the same size, composite
the input image onto it, save as JPEG into `processed/`. -/
def generate_background_local (input : Option Img) (ts uid : String) :
    Except String (String × BgComposite) :=
  match input with
  | none => .error "Image.open raised"
  | some img =>
    .ok (aiOutputPath "bg_generated_local" ts uid "jpg",
         if img.mode = Mode.RGBA then .alphaComposite else .blend)

/-- Result of a `generate_background_photoroom` run: whether
`remove_background_removebg` was invoked, and the returned path (or the
escaped exception). -/
structure GenBgRun where
  calledRemoveBg : Bool
  result : Except String String

/-- `generate_background_photoroom(input_path, ...)`: with no PhotoRoom
key, go straight to `generate_background_local`; with a key, first call
`remove_background_removebg`, then POST to PhotoRoom, falling back to
`generate_background_local` on the original input when the removal step
raised, the POST raised, or the POST returned non-200. -/
def generate_background_photoroom (photoroomKey removebgKey : Option String)
    (remoteRemoveBg remotePhotoRoom : RemoteOutcome) (input : Option Img)
    (ts uid : String) : GenBgRun :=
  match photoroomKey with
  | none =>
    { calledRemoveBg := false,
      result :=
        match generate_background_local input ts uid with
        | .ok (p, _) => .ok p
        | .error e => .error e }
  | some _ =>
    { calledRemoveBg := true,
      result :=
        match remove_background_removebg removebgKey remoteRemoveBg input ts uid with
        | .error _ =>
          match generate_background_local input ts uid with
          | .ok (p, _) => .ok p
          | .error e => .error e
        | .ok _ =>
          match remotePhotoRoom with
          | .success => .ok (aiOutputPath "photoroom_bg" ts uid "jpg")
          | _ =>
            match generate_background_local input ts uid with
            | .ok (p, _) => .ok p
            | .error e => .error e }

/-! ## Resize (ai_apis.py 432-460, image_processor.py 28-46) -/

/-- The target boxes offered by the resize menu
(`bot_simple.SimpleTelegramBot.process_resize` size_map). -/
def supportedBoxes : List (ℕ × ℕ) :=
  [(7680, 4320), (3840, 2160), (1920, 1080), (1280, 720), (720, 1280)]

/-- Output dimensions of `AIImageProcessor.resize_image(input, width,
height)`: with `aspect = ow/oh`, if `width/height > aspect` the height is
binding (`new_width = int(height * aspect)`), else the width is binding
(`new_height = int(width / aspect)`). -/
def resize_dims_ai (ow oh w h : ℕ) : ℤ × ℤ :=
  let aspect : ℚ := (ow : ℚ) / (oh : ℚ)
  if (w : ℚ) / (h : ℚ) > aspect then
    (⌊(h : ℚ) * aspect⌋, (h : ℤ))
  else
    ((w : ℤ), ⌊(w : ℚ) / aspect⌋)

/-- Output dimensions of `SimpleImageProcessor.resize_image`:
`ratio = min(width/ow, height/oh)`, `new = (int(ow*ratio), int(oh*ratio))`. -/
def resize_dims_simple (ow oh w h : ℕ) : ℤ × ℤ :=
  let ratio : ℚ := min ((w : ℚ) / (ow : ℚ)) ((h : ℚ) / (oh : ℚ))
  (⌊(ow : ℚ) * ratio⌋, ⌊(oh : ℚ) * ratio⌋)

/-! ## Smart crop (ai_apis.py 462-514, image_processor.py 48-95) -/

/-- The `(left, top, right, bottom)` box handed to `img.crop`. -/
structure CropBox where
  left : ℤ
  top : ℤ
  right : ℤ
  bottom : ℤ
deriving DecidableEq

/-- The crop box lies fully inside a `w × h` image. -/
def boxContained (b : CropBox) (w h : ℕ) : Prop :=
  0 ≤ b.left ∧ 0 ≤ b.top ∧ b.left ≤ b.right ∧ b.top ≤ b.bottom ∧
    b.right ≤ (w : ℤ) ∧ b.bottom ≤ (h : ℤ)

/-- Crop box computed by `AIImageProcessor.smart_crop(input, crop_type)`
(the second, string-dispatch crop in ai_apis.py): `square` is a centered
`min(w,h)` square; `portrait` fits a 3:4 box (`3/4`, `4/3` factors in the
source); `landscape` fits a 16:9 box; anything else (including `smart`)
fits a golden-ratio (`1.618`) box. Python float factors are modelled as
exact rationals, `int(...)` as `⌊...⌋`, `//` as `Int.fdiv`. -/
def ai_smart_crop_box (w h : ℕ) (ctype : String) : CropBox :=
  if ctype = "square" then
    let size : ℤ := min (w : ℤ) (h : ℤ)
    let x := Int.fdiv ((w : ℤ) - size) 2
    let y := Int.fdiv ((h : ℤ) - size) 2
    ⟨x, y, x + size, y + size⟩
  else if ctype = "portrait" then
    if (w : ℚ) / (h : ℚ) > 3 / 4 then
      let nw : ℤ := ⌊(h : ℚ) * (3 / 4)⌋
      let x := Int.fdiv ((w : ℤ) - nw) 2
      ⟨x, 0, x + nw, (h : ℤ)⟩
    else
      let nh : ℤ := ⌊(w : ℚ) * (4 / 3)⌋
      let y := Int.fdiv ((h : ℤ) - nh) 2
      ⟨0, y, (w : ℤ), y + nh⟩
  else if ctype = "landscape" then
    if (w : ℚ) / (h : ℚ) > 16 / 9 then
      let nw : ℤ := ⌊(h : ℚ) * (16 / 9)⌋
      let x := Int.fdiv ((w : ℤ) - nw) 2
      ⟨x, 0, x + nw, (h : ℤ)⟩
    else
      let nh : ℤ := ⌊(w : ℚ) * (9 / 16)⌋
      let y := Int.fdiv ((h : ℤ) - nh) 2
      ⟨0, y, (w : ℤ), y + nh⟩
  else
    if (w : ℚ) / (h : ℚ) > 1618 / 1000 then
      let nw : ℤ := ⌊(h : ℚ) * (1618 / 1000)⌋
      let x := Int.fdiv ((w : ℤ) - nw) 2
      ⟨x, 0, x + nw, (h : ℤ)⟩
    else
      let nh : ℤ := ⌊(w : ℚ) / (1618 / 1000)⌋
      let y := Int.fdiv ((h : ℤ) - nh) 2
      ⟨0, y, (w : ℤ), y + nh⟩

/-- Crop box computed by `SimpleImageProcessor.smart_crop(input, mode)`:
`smart`, `square`, and unknown modes are a centered `min(w,h)` square;
`portrait` takes `new_height = min(h, int(w*16/9))`,
`new_width = int(new_height*9/16)`, centered; `landscape` takes
`new_width = min(w, int(h*16/9))`, `new_height = int(new_width*9/16)`,
centered. -/
def simple_smart_crop_box (w h : ℕ) (mode : String) : CropBox :=
  if mode = "portrait" then
    let nh : ℤ := min (h : ℤ) ⌊(w : ℚ) * (16 / 9)⌋
    let nw : ℤ := ⌊(nh : ℚ) * (9 / 16)⌋
    let left := Int.fdiv ((w : ℤ) - nw) 2
    let top := Int.fdiv ((h : ℤ) - nh) 2
    ⟨left, top, left + nw, top + nh⟩
  else if mode = "landscape" then
    let nw : ℤ := min (w : ℤ) ⌊(h : ℚ) * (16 / 9)⌋
    let nh : ℤ := ⌊(nw : ℚ) * (9 / 16)⌋
    let left := Int.fdiv ((w : ℤ) - nw) 2
    let top := Int.fdiv ((h : ℤ) - nh) 2
    ⟨left, top, left + nw, top + nh⟩
  else
    let size : ℤ := min (w : ℤ) (h : ℤ)
    let left := Int.fdiv ((w : ℤ) - size) 2
    let top := Int.fdiv ((h : ℤ) - size) 2
    ⟨left, top, left + size, top + size⟩

/-- PIL's name for a mode, as it appears in encoder error messages. -/
def modeName : Mode → String
  | Mode.RGB => "RGB"
  | Mode.RGBA => "RGBA"
  | Mode.L => "L"
  | Mode.LA => "LA"
  | Mode.P => "P"
  | Mode.CMYK => "CMYK"

/-- Whether PIL's JPEG encoder accepts a mode: it writes RGB, L and CMYK
images and raises `OSError("cannot write mode ... as JPEG")` for the
alpha-carrying and palette modes. -/
def jpegWritable : Mode → Bool
  | Mode.RGB => true
  | Mode.L => true
  | Mode.CMYK => true
  | _ => false

/-- `AIImageProcessor.smart_crop(input, crop_type)` end to end: open the
image (re-raising on failure), compute the crop box — `img.crop` keeps
the mode and never raises for an in-bounds box — then save the result
unconditionally as JPEG (ai_apis.py 507) with no mode conversion, so the
save raises for any mode the JPEG encoder rejects and the function's
final `except ... raise` re-raises it. -/
def ai_smart_crop (input : Option Img) (ctype ts uid : String) :
    Except String (CropBox × String) :=
  match input with
  | none => .error "Image.open raised"
  | some img =>
    let box := ai_smart_crop_box img.width img.height ctype
    if jpegWritable img.mode then
      .ok (box, aiOutputPath ("cropped_" ++ ctype) ts uid "jpg")
    else
      .error ("cannot write mode " ++ modeName img.mode ++ " as JPEG")

/-- `demoImg` with an alpha-carrying mode, for the crop counterexample. -/
def demoImgRGBA : Img := { demoImg with mode := Mode.RGBA }

/-! ## Format conversion (ai_apis.py 575-612, image_processor.py 161-183) -/

/-- Result of a `convert_format` call: an explicit-format save recording
the mode of the image handed to the encoder, a generic extension-inferred
save (`img.save(path)` with no format argument), or a raised
unsupported-format `ValueError`. -/
inductive ConvertResult
  | saved (fmt : String) (m : Mode) (path : String)
  | genericSave (m : Mode) (path : String)
  | unsupportedFmt (msg : String)
deriving DecidableEq

/-- Whether a PIL mode carries transparency (RGBA, LA, or palette). -/
def modeHasAlpha : Mode → Bool
  | Mode.RGBA => true
  | Mode.LA => true
  | Mode.P => true
  | _ => false

/-- Did the conversion raise the unsupported-format error? -/
def isUnsupportedFmt : ConvertResult → Bool
  | .unsupportedFmt _ => true
  | _ => false

/-- `AIImageProcessor.convert_format(input, target_format)`: jpg/jpeg
converts RGBA and P (but not LA) to RGB and saves JPEG; png converts
anything other than RGBA/RGB to RGBA and saves PNG; webp saves as-is;
any other format string raises `ValueError(f"Unsupported format: ...")`. -/
def ai_convert_format (m : Mode) (target : String) (ts uid : String) : ConvertResult :=
  if strLower target = "jpg" ∨ strLower target = "jpeg" then
    .saved "JPEG" (if m = Mode.RGBA ∨ m = Mode.P then Mode.RGB else m)
      (aiOutputPath ("converted_" ++ target) ts uid "jpg")
  else if strLower target = "png" then
    .saved "PNG" (if ¬(m = Mode.RGBA ∨ m = Mode.RGB) then Mode.RGBA else m)
      (aiOutputPath ("converted_" ++ target) ts uid "png")
  else if strLower target = "webp" then
    .saved "WebP" m (aiOutputPath ("converted_" ++ target) ts uid "webp")
  else
    .unsupportedFmt ("Unsupported format: " ++ target)

/-- `SimpleImageProcessor.convert_format(input, format)`: jpeg/jpg
converts RGBA, LA and P to RGB and saves JPEG; png and webp save as-is;
any other format string falls through to a generic
`img.save(output_path, quality=85)` whose format is inferred from the
output extension (which is the requested format string). -/
def simple_convert_format (m : Mode) (format : String) (p : PyPath) : ConvertResult :=
  let outPath := simpleOutputPath p "converted" (some format)
  if strLower format = "jpeg" ∨ strLower format = "jpg" then
    .saved "JPEG" (if m = Mode.RGBA ∨ m = Mode.LA ∨ m = Mode.P then Mode.RGB else m) outPath
  else if strLower format = "png" then
    .saved "PNG" m outPath
  else if strLower format = "webp" then
    .saved "WEBP" m outPath
  else
    .genericSave m outPath

/-! ## Callback routers (bot_simple.py 301-438, webhook_server.py 277-333,
deepseek_python_20251015_f33cc7.py 162-289) -/

/-- What a router does with one callback: reply "send a photo first",
reply "photo expired", render a (sub)menu, dispatch an image operation on
a stored photo path, or nothing (unrecognized action). -/
inductive CbOutcome
  | replyNoPhoto
  | replyExpired
  | menu (name : String)
  | dispatch (op : String) (path : String)
  | noAction
deriving DecidableEq

/-- The elif chain of `SimpleTelegramBot.handle_callback_query`
(bot_simple.py 320-427), reached once a stored photo path is in hand. -/
def botSimpleChain (path action : String) : CbOutcome :=
  if action = "resize" then .menu "resize"
  else if strHasPfx action "resize_" then .dispatch "resize_image" path
  else if action = "crop" then .menu "crop"
  else if strHasPfx action "crop_" then .dispatch "smart_crop" path
  else if action = "remove_bg" then .dispatch "remove_background_removebg" path
  else if action = "generate_bg" then .dispatch "generate_background_photoroom" path
  else if action = "enhance" then .menu "enhance"
  else if action = "convert" then .menu "convert"
  else if strHasPfx action "convert_" then .dispatch "convert_format" path
  else if strHasPfx action "enhance_" then .dispatch "enhance_quality_ai" path
  else if action = "back" then .menu "main"
  else .noAction

/-- `SimpleTelegramBot.handle_callback_query` (bot_simple.py): the session
is `self.user_photos.get(user_id)`.  The guard checks only membership in
`user_photos` — the filesystem oracle `fs` is never consulted — and then
dispatches on the action string. -/
def botSimpleRoute (session : Option String) (fs : String → Bool) (action : String) :
    CbOutcome :=
  match session with
  | none => .replyNoPhoto
  | some path => botSimpleChain path action

/-- The webhook resize submenu's size_map keys (webhook_server.py). -/
def webhookSizeKeys : List String :=
  ["resize_8k", "resize_4k", "resize_1080p", "resize_720p"]

/-- `handle_callback_query` (webhook_server.py): `photo_path =
user_photos.get(user_id)`; `if not photo_path or not
os.path.exists(photo_path)` replies with the expiry message; otherwise
`remove_bg` and the size_map resize actions are dispatched. -/
def webhookRoute (session : Option String) (fs : String → Bool) (action : String) :
    CbOutcome :=
  match session with
  | none => .replyExpired
  | some path =>
    if path = "" ∨ fs path = false then .replyExpired
    else if action = "remove_bg" then .dispatch "remove_background_removebg" path
    else if strHasPfx action "resize_" then
      if action ∈ webhookSizeKeys then .dispatch "resize_image" path else .noAction
    else .noAction

/-- The elif chain of `TelegramBot.handle_callback`
(deepseek_python_20251015_f33cc7.py 184-285), reached once an existing
photo path is in hand.  Unlike the polling bot, `enhance` dispatches the
operation directly (there is no resolution submenu). -/
def deepseekChain (path action : String) : CbOutcome :=
  if action = "resize" then .menu "resize"
  else if strHasPfx action "resize_" then .dispatch "resize_image" path
  else if action = "crop" then .menu "crop"
  else if strHasPfx action "crop_" then .dispatch "smart_crop" path
  else if action = "remove_bg" then .dispatch "remove_background" path
  else if action = "generate_bg" then .dispatch "generate_background" path
  else if action = "enhance" then .dispatch "enhance_quality" path
  else if action = "convert" then .menu "convert"
  else if strHasPfx action "convert_" then .dispatch "convert_format" path
  else if action = "back_main" then .menu "main"
  else .noAction

/-- `TelegramBot.handle_callback` (deepseek_python_20251015_f33cc7.py):
the session is `self.user_states.get(user_id)` (outer `Option`) and its
`"photo_path"` entry (inner `Option`).  A missing entry replies "send a
photo first"; an empty or non-existing path replies "photo expired" and
deletes the session entry; otherwise the action dispatches.  Returns the
outcome and the session entry after the call. -/
def deepseekRoute (session : Option (Option String)) (fs : String → Bool)
    (action : String) : CbOutcome × Option (Option String) :=
  match session with
  | none => (.replyNoPhoto, none)
  | some st =>
    match st with
    | none => (.replyExpired, none)
    | some path =>
      if path = "" ∨ fs path = false then (.replyExpired, none)
      else (deepseekChain path action, some (some path))

/-! ## Leaf action handlers (bot_simple.py 440-607) -/

/-- One observable step of a leaf handler: a status-message edit, a photo
sent to the chat, or an invocation of an image-processor operation. -/
inductive Effect
  | editMsg (text : String)
  | sendPhoto (path : String)
  | invoke (op : String)
deriving DecidableEq

/-- The per-user photo store `self.user_photos`. -/
def SessionMap := List (ℕ × String)

/-- `process_resize`'s size_map (bot_simple.py 445-451). -/
def sizeMap (a : String) : Option (ℕ × ℕ) :=
  if a = "resize_8k" then some (7680, 4320)
  else if a = "resize_4k" then some (3840, 2160)
  else if a = "resize_1080p" then some (1920, 1080)
  else if a = "resize_720p" then some (1280, 720)
  else if a = "resize_mobile" then some (720, 1280)
  else none

/-- `process_convert_format`'s format_map (bot_simple.py 560-564). -/
def formatMap (a : String) : Option String :=
  if a = "convert_jpeg" then some "JPEG"
  else if a = "convert_png" then some "PNG"
  else if a = "convert_webp" then some "WebP"
  else none

/-- `process_enhance_resolution`'s resolution_map (bot_simple.py 586-592). -/
def enhanceResMap (a : String) : Option String :=
  if a = "enhance_8k" then some "8k"
  else if a = "enhance_4k" then some "4k"
  else if a = "enhance_1080p" then some "1080p"
  else if a = "enhance_720p" then some "720p"
  else if a = "enhance_original" then some "original"
  else none

/-- `SimpleTelegramBot.process_resize`: edit an in-progress notice, look
up the target box (a missing key raises and is caught by the handler's
`except`), invoke `resize_image`, then on success send the photo and edit
a success notice, on failure edit the failure notice.  `self.user_photos`
is returned untouched. -/
def bs_process_resize (photos : SessionMap) (action : String)
    (op : Except String String) : List Effect × SessionMap :=
  ([Effect.editMsg "🔄 Resizing image... Please wait."] ++
    (match sizeMap action with
     | none => [Effect.editMsg "❌ Failed to resize image. Please try again."]
     | some _ =>
       [Effect.invoke "resize_image"] ++
         (match op with
          | .error _ => [Effect.editMsg "❌ Failed to resize image. Please try again."]
          | .ok p => [Effect.sendPhoto p,
                      Effect.editMsg "✅ Image resized successfully!"])),
   photos)

/-- `SimpleTelegramBot.process_crop`. -/
def bs_process_crop (photos : SessionMap) (op : Except String String) :
    List Effect × SessionMap :=
  ([Effect.editMsg "✂️ Cropping image... Please wait.",
    Effect.invoke "smart_crop"] ++
    (match op with
     | .error _ => [Effect.editMsg "❌ Failed to crop image. Please try again."]
     | .ok p => [Effect.sendPhoto p, Effect.editMsg "✅ Image cropped successfully!"]),
   photos)

/-- `SimpleTelegramBot.process_remove_background`. -/
def bs_process_remove_background (photos : SessionMap) (op : Except String String) :
    List Effect × SessionMap :=
  ([Effect.editMsg "🎭 Removing background with AI... Please wait.",
    Effect.invoke "remove_background_removebg"] ++
    (match op with
     | .error _ => [Effect.editMsg "❌ Failed to remove background. Please try again."]
     | .ok p => [Effect.sendPhoto p, Effect.editMsg "✅ Background removed using AI!"]),
   photos)

/-- `SimpleTelegramBot.process_generate_background`. -/
def bs_process_generate_background (photos : SessionMap) (op : Except String String) :
    List Effect × SessionMap :=
  ([Effect.editMsg "🖼️ Generating new background with AI... Please wait.",
    Effect.invoke "generate_background_photoroom"] ++
    (match op with
     | .error _ => [Effect.editMsg "❌ Failed to generate background. Please try again."]
     | .ok p => [Effect.sendPhoto p, Effect.editMsg "✅ Background generated using AI!"]),
   photos)

/-- `SimpleTelegramBot.process_convert_format`. -/
def bs_process_convert_format (photos : SessionMap) (action : String)
    (op : Except String String) : List Effect × SessionMap :=
  ([Effect.editMsg "🔄 Converting format... Please wait."] ++
    (match formatMap action with
     | none => [Effect.editMsg "❌ Failed to convert format. Please try again."]
     | some _ =>
       [Effect.invoke "convert_format"] ++
         (match op with
          | .error _ => [Effect.editMsg "❌ Failed to convert format. Please try again."]
          | .ok p => [Effect.sendPhoto p,
                      Effect.editMsg "✅ Format converted successfully!"])),
   photos)

/-- `SimpleTelegramBot.process_enhance_resolution`. -/
def bs_process_enhance_resolution (photos : SessionMap) (action : String)
    (op : Except String String) : List Effect × SessionMap :=
  ([Effect.editMsg "⬆️ Enhancing image quality... Please wait."] ++
    (match enhanceResMap action with
     | none => [Effect.editMsg "❌ Failed to enhance quality. Please try again."]
     | some _ =>
       [Effect.invoke "enhance_quality_ai"] ++
         (match op with
          | .error _ => [Effect.editMsg "❌ Failed to enhance quality. Please try again."]
          | .ok p => [Effect.sendPhoto p,
                      Effect.editMsg "✅ Quality enhanced!"])),
   photos)

/-- Is the effect an image-operation invocation? -/
def isInvoke : Effect → Bool
  | .invoke _ => true
  | _ => false

/-- Number of image-operation invocations in an effect trace. -/
def countInvokes (l : List Effect) : ℕ := (l.filter isInvoke).length

/-! ## File effects of the image operations (for the frame claim) -/

/-- The filesystem footprint of one image operation: paths opened for
reading, paths written, paths deleted, and the returned output path. -/
structure OpRun where
  reads : List String
  writes : List String
  deletes : List String
  output : String
deriving DecidableEq

/-- Footprint shared by every `AIImageProcessor` operation: open the
input for reading, save to `processed/<prefix>_<ts>_<uid>.<ext>`, delete
nothing, return the written path. -/
def aiOpRun (input pfx ts uid ext : String) : OpRun :=
  { reads := [input],
    writes := [aiOutputPath pfx ts uid ext],
    deletes := [],
    output := aiOutputPath pfx ts uid ext }

/-- `AIImageProcessor.resize_image` footprint (prefix `"resized"`, default
`"jpg"` extension). -/
def ai_resize_run (input ts uid : String) : OpRun := aiOpRun input "resized" ts uid "jpg"

/-- `AIImageProcessor.smart_crop` footprint (prefix `"cropped_<type>"`). -/
def ai_smart_crop_run (input ctype ts uid : String) : OpRun :=
  aiOpRun input ("cropped_" ++ ctype) ts uid "jpg"

/-- `AIImageProcessor.enhance_quality` footprint (prefix
`"enhanced_<resolution>"`). -/
def ai_enhance_quality_run (input res ts uid : String) : OpRun :=
  aiOpRun input ("enhanced_" ++ res) ts uid "jpg"

/-- `AIImageProcessor.enhance_quality_ai` footprint (prefix
`"ai_enhanced_<resolution>"`; the later of the two definitions in
ai_apis.py is the one Python keeps). -/
def ai_enhance_quality_ai_run (input res ts uid : String) : OpRun :=
  aiOpRun input ("ai_enhanced_" ++ res) ts uid "jpg"

/-- `AIImageProcessor.convert_format` footprint for the three explicit
formats (the extension follows the chosen branch). -/
def ai_convert_format_run (input target ts uid ext : String) : OpRun :=
  aiOpRun input ("converted_" ++ target) ts uid ext

/-- `AIImageProcessor.remove_background_local` footprint. -/
def ai_remove_bg_local_run (input ts uid : String) : OpRun :=
  aiOpRun input "bg_removed_local" ts uid "png"

/-- `AIImageProcessor.generate_background_local` footprint. -/
def ai_generate_bg_local_run (input ts uid : String) : OpRun :=
  aiOpRun input "bg_generated_local" ts uid "jpg"

/-- Footprint shared by every `SimpleImageProcessor` operation: open the
input for reading, save to `_get_output_path(input, sfx, extension)`,
delete nothing, return the written path. -/
def simpleOpRun (p : PyPath) (sfx : String) (extension : Option String) : OpRun :=
  { reads := [p.render],
    writes := [simpleOutputPath p sfx extension],
    deletes := [],
    output := simpleOutputPath p sfx extension }

/-- `SimpleImageProcessor.resize_image` footprint
(suffix `"resized_<nw>x<nh>"`, extension kept). -/
def simple_resize_run (p : PyPath) (nw nh : ℕ) : OpRun :=
  simpleOpRun p ("resized_" ++ toString nw ++ "x" ++ toString nh) none

/-- `SimpleImageProcessor.smart_crop` footprint (suffix `"cropped_<mode>"`). -/
def simple_crop_run (p : PyPath) (mode : String) : OpRun :=
  simpleOpRun p ("cropped_" ++ mode) none

/-- `SimpleImageProcessor.remove_background` footprint (suffix `"no_bg"`,
extension `"png"`). -/
def simple_remove_bg_run (p : PyPath) : OpRun := simpleOpRun p "no_bg" (some "png")

/-- `SimpleImageProcessor.generate_background` footprint (suffix `"new_bg"`). -/
def simple_generate_bg_run (p : PyPath) : OpRun := simpleOpRun p "new_bg" none

/-- `SimpleImageProcessor.enhance_quality` footprint (suffix `"enhanced"`). -/
def simple_enhance_run (p : PyPath) : OpRun := simpleOpRun p "enhanced" none

/-- `SimpleImageProcessor.convert_format` footprint (suffix `"converted"`,
extension the requested format string). -/
def simple_convert_run (p : PyPath) (format : String) : OpRun :=
  simpleOpRun p "converted" (some format)

/-- The frame property one operation run must satisfy: nothing deleted,
exactly the output written, the output inside `processed/`, and — for any
input outside `processed/`, which covers every path the routers supply,
those all live under `uploads/` — an output distinct from the input. -/
def opFrameOk (run : OpRun) (input : String) : Prop :=
  run.deletes = [] ∧ run.writes = [run.output] ∧
    strHasPfx run.output "processed/" = true ∧
    (strHasPfx input "processed/" = false → run.output ≠ input)

/-- What claim C3 requires of computed resize dimensions `(nw, nh)` for an
`ow × oh` source and a `w × h` target box: nonnegative, inside the box,
and within one pixel of the exact scaled dimensions
`(s * ow, s * oh)` for `s = min (w/ow) (h/oh)`. -/
def resizeFits (dims : ℤ × ℤ) (ow oh w h : ℕ) : Prop :=
  0 ≤ dims.1 ∧ 0 ≤ dims.2 ∧ dims.1 ≤ (w : ℤ) ∧ dims.2 ≤ (h : ℤ) ∧
    |(dims.1 : ℚ) - min ((w : ℚ) / (ow : ℚ)) ((h : ℚ) / (oh : ℚ)) * ow| < 1 ∧
    |(dims.2 : ℚ) - min ((w : ℚ) / (ow : ℚ)) ((h : ℚ) / (oh : ℚ)) * oh| < 1

/-- Width of a crop box. -/
def boxW (b : CropBox) : ℤ := b.right - b.left

/-- Height of a crop box. -/
def boxH (b : CropBox) : ℤ := b.bottom - b.top

/-! # Theorems -/

/-! ## Helper lemmas -/

/-- A list is a Boolean prefix of itself followed by anything. -/
theorem isPrefixOf_append_self (l t : List Char) : l.isPrefixOf (l ++ t) = true := by
  induction l with
  | nil => simp
  | cons a l ih => simp [List.isPrefixOf_cons₂, ih]

/-- `strHasPfx` holds of a string that literally starts with the prefix. -/
theorem strHasPfx_append (p r : String) : strHasPfx (p ++ r) p = true := by
  simpa [strHasPfx, String.data_append] using isPrefixOf_append_self p.data r.data

set_option maxHeartbeats 2000000 in
/-- Every dispatch of the polling bot's elif chain carries the stored
photo path. -/
theorem botSimpleChain_dispatch (q a op p : String)
    (h : botSimpleChain q a = CbOutcome.dispatch op p) : p = q := by
  unfold botSimpleChain at h
  split_ifs at h <;>
    first
      | exact CbOutcome.noConfusion h
      | (rw [CbOutcome.dispatch.injEq] at h
         exact h.2.symm)

set_option maxHeartbeats 2000000 in
/-- Every dispatch of the python-telegram-bot elif chain carries the
stored photo path. -/
theorem deepseekChain_dispatch (q a op p : String)
    (h : deepseekChain q a = CbOutcome.dispatch op p) : p = q := by
  unfold deepseekChain at h
  split_ifs at h <;>
    first
      | exact CbOutcome.noConfusion h
      | (rw [CbOutcome.dispatch.injEq] at h
         exact h.2.symm)

/-! ## Claim C2: background-removal fallback totality -/

/-- Claim C2 as stated is false: `removeBackground` does not return a
path for *every* input path.  With the Remove.bg credential absent and an
input file that `Image.open` cannot read, the local fallback re-raises
(`remove_background_local`'s final `except ... raise`, ai_apis.py 136-138),
so the call escapes with an exception instead of returning a path. -/
theorem C2_counterexample :
    exOk (remove_background_removebg none RemoteOutcome.exn none
      "20250101_000000" "abcd1234") = false := rfl

/-- Claim C2, amended: for every input image that `Image.open` can read,
`remove_background_removebg` returns an output path under every
combination of credential presence and remote outcome; in particular with
the credential absent (or the remote failing) it returns the local
fallback's `processed/bg_removed_local_...png` path without raising. -/
theorem C2_amended :
    (∀ (k : Option String) (r : RemoteOutcome) (img : Img) (ts uid : String),
      exOk (remove_background_removebg k r (some img) ts uid) = true) ∧
    (∀ (r : RemoteOutcome) (img : Img) (ts uid : String),
      remove_background_removebg none r (some img) ts uid =
        .ok (aiOutputPath "bg_removed_local" ts uid "png")) := by
  constructor
  · intro k r img ts uid
    cases k <;> cases r <;> rfl
  · intro r img ts uid
    rfl

/-! ## Claim C8: background generation call structure -/

/-- Claim C8 as stated is false: with the PhotoRoom credential absent,
`generate_background_photoroom` goes straight to
`generate_background_local` (ai_apis.py 145-147) and never calls
`removeBackground` first — here a concrete run that returns a path having
invoked no background removal. -/
theorem C8_counterexample :
    (generate_background_photoroom none (some "rk") RemoteOutcome.success
      RemoteOutcome.success (some demoImg) "t" "u").calledRemoveBg = false ∧
    exOk (generate_background_photoroom none (some "rk") RemoteOutcome.success
      RemoteOutcome.success (some demoImg) "t" "u").result = true := ⟨rfl, rfl⟩

/-- Claim C8, amended: `generate_background_photoroom` calls
`remove_background_removebg` first exactly when the PhotoRoom credential
is present; and for every input image that `Image.open` can read it
returns an output path under every combination of credentials and remote
outcomes (remote unavailable or credential missing degrades to the local
compositing path). -/
theorem C8_amended :
    ∀ (pk rk : Option String) (rr rp : RemoteOutcome) (img : Img) (ts uid : String),
      (generate_background_photoroom pk rk rr rp (some img) ts uid).calledRemoveBg
          = pk.isSome ∧
      exOk (generate_background_photoroom pk rk rr rp (some img) ts uid).result
          = true := by
  intro pk rk rr rp img ts uid
  cases pk <;> cases rk <;> cases rr <;> cases rp <;> exact ⟨rfl, rfl⟩

/-! ## Claim C6: JPEG conversion flattens alpha -/

/-- Claim C6 as stated is false for `AIImageProcessor.convert_format`: an
`LA` (grey + alpha) image is not flattened before the JPEG save — the
branch only converts `RGBA` and `P` (ai_apis.py 582-583) — so the image
handed to the JPEG encoder still carries transparency. -/
theorem C6_counterexample :
    ai_convert_format Mode.LA "jpeg" "t" "u" =
      ConvertResult.saved "JPEG" Mode.LA (aiOutputPath "converted_jpeg" "t" "u" "jpg") ∧
    modeHasAlpha Mode.LA = true := ⟨rfl, rfl⟩

/-- Claim C6, amended: converting to jpeg flattens transparency to `RGB`
for `RGBA` and palette inputs in `AIImageProcessor.convert_format`, and
for `RGBA`, `LA` and palette inputs in
`SimpleImageProcessor.convert_format`; only the `LA` case of the AI
converter reaches the JPEG encoder unflattened. -/
theorem C6_amended :
    ∀ (m : Mode) (ts uid : String) (p : PyPath),
      ((m = Mode.RGBA ∨ m = Mode.P) →
        ai_convert_format m "jpeg" ts uid =
          ConvertResult.saved "JPEG" Mode.RGB
            (aiOutputPath "converted_jpeg" ts uid "jpg")) ∧
      ((m = Mode.RGBA ∨ m = Mode.LA ∨ m = Mode.P) →
        simple_convert_format m "jpeg" p =
          ConvertResult.saved "JPEG" Mode.RGB
            (simpleOutputPath p "converted" (some "jpeg"))) := by
  intro m ts uid p
  constructor
  · rintro (rfl | rfl) <;> rfl
  · rintro (rfl | rfl | rfl) <;> rfl

/-- Witness for C6_amended at concrete inputs. -/
theorem C6_witness :
    ai_convert_format Mode.RGBA "jpeg" "t" "u" =
      ConvertResult.saved "JPEG" Mode.RGB (aiOutputPath "converted_jpeg" "t" "u" "jpg") ∧
    simple_convert_format Mode.LA "jpeg" ⟨"uploads/", "x", ".jpg"⟩ =
      ConvertResult.saved "JPEG" Mode.RGB
        (simpleOutputPath ⟨"uploads/", "x", ".jpg"⟩ "converted" (some "jpeg")) :=
  ⟨(C6_amended Mode.RGBA "t" "u" ⟨"uploads/", "x", ".jpg"⟩).1 (Or.inl rfl),
   (C6_amended Mode.LA "t" "u" ⟨"uploads/", "x", ".jpg"⟩).2 (Or.inr (Or.inl rfl))⟩

/-! ## Claim C7: unsupported conversion formats -/

/-- Claim C7 as stated is false for `SimpleImageProcessor.convert_format`:
a format outside {jpeg, png, webp} (here `"bmp"`) does not raise an
unsupported-format error; the code falls through to a generic
`img.save(output_path, quality=85)` aimed at an output file named with
the requested extension (image_processor.py 176-177). -/
theorem C7_counterexample :
    simple_convert_format Mode.RGB "bmp" ⟨"uploads/", "temp_1_a", ".jpg"⟩ =
      ConvertResult.genericSave Mode.RGB "processed/temp_1_a_converted.bmp" ∧
    isUnsupportedFmt
      (simple_convert_format Mode.RGB "bmp" ⟨"uploads/", "temp_1_a", ".jpg"⟩) = false :=
  ⟨rfl, rfl⟩

/-- Claim C7, amended: for every format string whose lowercase form is
outside {jpg, jpeg, png, webp}, `AIImageProcessor.convert_format` raises
the unsupported-format `ValueError`, while
`SimpleImageProcessor.convert_format` instead attempts a generic
extension-inferred save to an output file named with the requested
format. -/
theorem C7_amended :
    ∀ (fmt : String) (m : Mode) (ts uid : String) (p : PyPath),
      strLower fmt ∉ (["jpg", "jpeg", "png", "webp"] : List String) →
      ai_convert_format m fmt ts uid =
          ConvertResult.unsupportedFmt ("Unsupported format: " ++ fmt) ∧
      simple_convert_format m fmt p =
          ConvertResult.genericSave m (simpleOutputPath p "converted" (some fmt)) := by
  intro fmt m ts uid p hmem
  simp only [List.mem_cons, List.not_mem_nil, or_false, not_or] at hmem
  obtain ⟨h1, h2, h3, h4⟩ := hmem
  constructor
  · simp [ai_convert_format, h1, h2, h3, h4]
  · simp [simple_convert_format, h1, h2, h3, h4]

/-- Witness for C7_amended at the concrete format `"bmp"`. -/
theorem C7_witness :
    ai_convert_format Mode.RGB "bmp" "t" "u" =
      ConvertResult.unsupportedFmt ("Unsupported format: " ++ "bmp") ∧
    simple_convert_format Mode.RGB "bmp" ⟨"uploads/", "x", ".jpg"⟩ =
      ConvertResult.genericSave Mode.RGB
        (simpleOutputPath ⟨"uploads/", "x", ".jpg"⟩ "converted" (some "bmp")) :=
  C7_amended "bmp" Mode.RGB "t" "u" ⟨"uploads/", "x", ".jpg"⟩ (by decide)

/-! ## Claim C1: routers and photo-file existence -/

/-- Claim C1 as stated is false for `SimpleTelegramBot.handle_callback_query`
(bot_simple.py 313-318): the guard checks only membership in
`self.user_photos`, never `os.path.exists`, so with a session entry whose
file is gone the router still dispatches the image operation (which then
fails inside the handler with a generic failure notice, not the
expiry/re-upload error). -/
theorem C1_counterexample :
    botSimpleRoute (some "uploads/temp_1_a.jpg") (fun _ => false) "remove_bg" =
      CbOutcome.dispatch "remove_background_removebg" "uploads/temp_1_a.jpg" ∧
    (fun _ => false : String → Bool) "uploads/temp_1_a.jpg" = false := ⟨rfl, rfl⟩

/-- Claim C1, amended: the webhook router and the python-telegram-bot
router dispatch an operation only when the stored path names an existing
file, and report the expiry/re-upload error otherwise (the latter also
clearing the session); the polling bot's router checks only that a
session entry exists — with no entry it reports "send a photo first" and
dispatches nothing, but an entry with a missing file is still
dispatched. -/
theorem C1_amended :
    (∀ (s : Option String) (fs : String → Bool) (a op p : String),
      webhookRoute s fs a = CbOutcome.dispatch op p → fs p = true) ∧
    (∀ (fs : String → Bool) (a : String),
      webhookRoute none fs a = CbOutcome.replyExpired) ∧
    (∀ (q : String) (fs : String → Bool) (a : String), fs q = false →
      webhookRoute (some q) fs a = CbOutcome.replyExpired) ∧
    (∀ (s : Option (Option String)) (fs : String → Bool) (a op p : String),
      (deepseekRoute s fs a).1 = CbOutcome.dispatch op p → fs p = true) ∧
    (∀ (fs : String → Bool) (a : String),
      deepseekRoute none fs a = (CbOutcome.replyNoPhoto, none)) ∧
    (∀ (q : String) (fs : String → Bool) (a : String), fs q = false →
      deepseekRoute (some (some q)) fs a = (CbOutcome.replyExpired, none)) ∧
    (∀ (fs : String → Bool) (a : String),
      botSimpleRoute none fs a = CbOutcome.replyNoPhoto) ∧
    (∀ (s : Option String) (fs : String → Bool) (a op p : String),
      botSimpleRoute s fs a = CbOutcome.dispatch op p → s = some p) := by
  refine ⟨?_, ?_, ?_, ?_, ?_, ?_, ?_, ?_⟩
  · intro s fs a op p h
    rcases s with _ | q
    · exact CbOutcome.noConfusion h
    · simp only [webhookRoute] at h
      by_cases hg : q = "" ∨ fs q = false
      · rw [if_pos hg] at h
        exact CbOutcome.noConfusion h
      · rw [if_neg hg] at h
        push_neg at hg
        have hfs : fs q = true := by
          cases hb : fs q
          · exact absurd hb hg.2
          · rfl
        split_ifs at h <;>
          first
            | exact CbOutcome.noConfusion h
            | (rw [CbOutcome.dispatch.injEq] at h
               rcases h with ⟨-, rfl⟩
               exact hfs)
  · intro fs a
    rfl
  · intro q fs a hq
    simp only [webhookRoute]
    rw [if_pos (Or.inr hq)]
  · intro s fs a op p h
    rcases s with _ | (_ | q)
    · exact CbOutcome.noConfusion h
    · exact CbOutcome.noConfusion h
    · by_cases hg : q = "" ∨ fs q = false
      · have h' : CbOutcome.replyExpired = CbOutcome.dispatch op p := by
          have he : deepseekRoute (some (some q)) fs a = (.replyExpired, none) := by
            simp only [deepseekRoute]
            rw [if_pos hg]
          rw [he] at h
          exact h
        exact CbOutcome.noConfusion h'
      · have he : deepseekRoute (some (some q)) fs a =
            (deepseekChain q a, some (some q)) := by
          simp only [deepseekRoute]
          rw [if_neg hg]
        rw [he] at h
        push_neg at hg
        have hfs : fs q = true := by
          cases hb : fs q
          · exact absurd hb hg.2
          · rfl
        have h' : deepseekChain q a = CbOutcome.dispatch op p := h
        rw [deepseekChain_dispatch q a op p h']
        exact hfs
  · intro fs a
    rfl
  · intro q fs a hq
    simp only [deepseekRoute]
    rw [if_pos (Or.inr hq)]
  · intro fs a
    rfl
  · intro s fs a op p h
    rcases s with _ | q
    · exact CbOutcome.noConfusion h
    · have h' : botSimpleChain q a = CbOutcome.dispatch op p := h
      rw [botSimpleChain_dispatch q a op p h']

/-- Witness for C1_amended: a concrete expired-session refusal and a
concrete dispatch whose file the filesystem oracle reports as existing. -/
theorem C1_witness :
    webhookRoute (some "uploads/x.jpg") (fun _ => false) "remove_bg" =
      CbOutcome.replyExpired ∧
    (fun _ => true : String → Bool) "uploads/x.jpg" = true := by
  constructor
  · exact C1_amended.2.2.1 "uploads/x.jpg" (fun _ => false) "remove_bg" rfl
  · exact C1_amended.1 (some "uploads/x.jpg") (fun _ => true) "remove_bg"
      "remove_background_removebg" "uploads/x.jpg" rfl

/-! ## Claim C9: leaf handlers on operation failure -/

/-- Claim C9: when the invoked image operation raises, every leaf handler
of `bot_simple.py` leaves the photo session map unchanged, invokes the
operation at most once (no automatic retry), and ends by editing the
status message to its failure notice. -/
theorem C9_error_frame :
    ∀ (photos : SessionMap) (action e : String),
      ((bs_process_resize photos action (.error e)).2 = photos ∧
        countInvokes (bs_process_resize photos action (.error e)).1 ≤ 1 ∧
        (bs_process_resize photos action (.error e)).1.getLast? =
          some (Effect.editMsg "❌ Failed to resize image. Please try again.")) ∧
      ((bs_process_crop photos (.error e)).2 = photos ∧
        countInvokes (bs_process_crop photos (.error e)).1 ≤ 1 ∧
        (bs_process_crop photos (.error e)).1.getLast? =
          some (Effect.editMsg "❌ Failed to crop image. Please try again.")) ∧
      ((bs_process_remove_background photos (.error e)).2 = photos ∧
        countInvokes (bs_process_remove_background photos (.error e)).1 ≤ 1 ∧
        (bs_process_remove_background photos (.error e)).1.getLast? =
          some (Effect.editMsg "❌ Failed to remove background. Please try again.")) ∧
      ((bs_process_generate_background photos (.error e)).2 = photos ∧
        countInvokes (bs_process_generate_background photos (.error e)).1 ≤ 1 ∧
        (bs_process_generate_background photos (.error e)).1.getLast? =
          some (Effect.editMsg "❌ Failed to generate background. Please try again.")) ∧
      ((bs_process_convert_format photos action (.error e)).2 = photos ∧
        countInvokes (bs_process_convert_format photos action (.error e)).1 ≤ 1 ∧
        (bs_process_convert_format photos action (.error e)).1.getLast? =
          some (Effect.editMsg "❌ Failed to convert format. Please try again.")) ∧
      ((bs_process_enhance_resolution photos action (.error e)).2 = photos ∧
        countInvokes (bs_process_enhance_resolution photos action (.error e)).1 ≤ 1 ∧
        (bs_process_enhance_resolution photos action (.error e)).1.getLast? =
          some (Effect.editMsg "❌ Failed to enhance quality. Please try again.")) := by
  intro photos action e
  refine ⟨?_,
    ⟨rfl, by simp [bs_process_crop, countInvokes, isInvoke], rfl⟩,
    ⟨rfl, by simp [bs_process_remove_background, countInvokes, isInvoke], rfl⟩,
    ⟨rfl, by simp [bs_process_generate_background, countInvokes, isInvoke], rfl⟩,
    ?_, ?_⟩
  · cases h : sizeMap action <;>
      simp [bs_process_resize, h, countInvokes, isInvoke]
  · cases h : formatMap action <;>
      simp [bs_process_convert_format, h, countInvokes, isInvoke]
  · cases h : enhanceResMap action <;>
      simp [bs_process_enhance_resolution, h, countInvokes, isInvoke]

/-! ## Floor arithmetic helpers -/

/-- The floor of a nonnegative rational is nonnegative. -/
theorem floor_nonneg_of_nonneg {x : ℚ} (h : 0 ≤ x) : 0 ≤ ⌊x⌋ :=
  Int.le_floor.mpr (by exact_mod_cast h)

/-- Floors are bounded by natural-number upper bounds of the argument. -/
theorem floor_le_natCast {x : ℚ} {n : ℕ} (h : x ≤ (n : ℚ)) : ⌊x⌋ ≤ (n : ℤ) := by
  have h2 := Int.floor_le_floor h
  simpa using h2

/-- Floors respect strict natural-number upper bounds of the argument. -/
theorem floor_lt_natCast {x : ℚ} {n : ℕ} (h : x < (n : ℚ)) : ⌊x⌋ < (n : ℤ) :=
  Int.floor_lt.mpr (by exact_mod_cast h)

/-- A floor is within one of its argument. -/
theorem abs_floor_sub_lt_one (x : ℚ) : |(⌊x⌋ : ℚ) - x| < 1 := by
  rw [abs_lt]
  constructor
  · linarith [Int.lt_floor_add_one x]
  · linarith [Int.floor_le x]

/-! ## Claim C3: resize fits the target box -/

/-- `AIImageProcessor.resize_image` produces dimensions that fit the box
and sit within one pixel of the exact min-scale dimensions. -/
theorem resize_ai_fits (ow oh w h : ℕ) (how : 0 < ow) (hoh : 0 < oh)
    (hw : 0 < w) (hh : 0 < h) :
    resizeFits (resize_dims_ai ow oh w h) ow oh w h := by
  have howQ : (0 : ℚ) < ow := by exact_mod_cast how
  have hohQ : (0 : ℚ) < oh := by exact_mod_cast hoh
  have hhQ : (0 : ℚ) < h := by exact_mod_cast hh
  simp only [resize_dims_ai, resizeFits]
  split_ifs with hcond
  · -- width/height exceeds the source aspect: height is binding
    rw [gt_iff_lt] at hcond
    have hmin : min ((w : ℚ) / (ow : ℚ)) ((h : ℚ) / (oh : ℚ)) = (h : ℚ) / (oh : ℚ) := by
      apply min_eq_right
      rw [div_le_div_iff hohQ howQ]
      rw [div_lt_div_iff hohQ hhQ] at hcond
      nlinarith [hcond]
    have hlt : (h : ℚ) * ((ow : ℚ) / (oh : ℚ)) < (w : ℚ) := by
      rw [div_lt_div_iff hohQ hhQ] at hcond
      rw [mul_div_assoc'] at *
      rw [div_lt_iff hohQ]
      nlinarith [hcond]
    refine ⟨floor_nonneg_of_nonneg (by positivity), by positivity,
      le_of_lt (floor_lt_natCast hlt), le_refl _, ?_, ?_⟩
    · rw [hmin]
      have hrw : (h : ℚ) / (oh : ℚ) * (ow : ℚ) = (h : ℚ) * ((ow : ℚ) / (oh : ℚ)) := by
        ring
      rw [hrw]
      exact abs_floor_sub_lt_one _
    · rw [hmin, div_mul_cancel₀ _ (ne_of_gt hohQ)]
      simp
  · -- width is binding
    push_neg at hcond
    have hmin : min ((w : ℚ) / (ow : ℚ)) ((h : ℚ) / (oh : ℚ)) = (w : ℚ) / (ow : ℚ) := by
      apply min_eq_left
      rw [div_le_div_iff howQ hohQ]
      rw [div_le_div_iff hhQ hohQ] at hcond
      nlinarith [hcond]
    have hdivrw : (w : ℚ) / ((ow : ℚ) / (oh : ℚ)) = (w : ℚ) / (ow : ℚ) * (oh : ℚ) := by
      field_simp
    have hle : (w : ℚ) / ((ow : ℚ) / (oh : ℚ)) ≤ (h : ℚ) := by
      rw [hdivrw]
      rw [div_le_div_iff hhQ hohQ] at hcond
      rw [div_mul_eq_mul_div, div_le_iff howQ]
      nlinarith [hcond]
    refine ⟨by positivity, floor_nonneg_of_nonneg ?_, le_refl _,
      floor_le_natCast hle, ?_, ?_⟩
    · rw [hdivrw]
      positivity
    · rw [hmin, div_mul_cancel₀ _ (ne_of_gt howQ)]
      simp
    · rw [hmin, ← hdivrw]
      have hrw : (w : ℚ) / (ow : ℚ) * (oh : ℚ) = (w : ℚ) / ((ow : ℚ) / (oh : ℚ)) :=
        hdivrw.symm
      exact abs_floor_sub_lt_one _

/-- `SimpleImageProcessor.resize_image` produces dimensions that fit the
box and sit within one pixel of the exact min-scale dimensions. -/
theorem resize_simple_fits (ow oh w h : ℕ) (how : 0 < ow) (hoh : 0 < oh)
    (hw : 0 < w) (hh : 0 < h) :
    resizeFits (resize_dims_simple ow oh w h) ow oh w h := by
  have howQ : (0 : ℚ) < ow := by exact_mod_cast how
  have hohQ : (0 : ℚ) < oh := by exact_mod_cast hoh
  have hs0 : (0 : ℚ) ≤ min ((w : ℚ) / (ow : ℚ)) ((h : ℚ) / (oh : ℚ)) :=
    le_min (by positivity) (by positivity)
  simp only [resize_dims_simple, resizeFits]
  set s : ℚ := min ((w : ℚ) / (ow : ℚ)) ((h : ℚ) / (oh : ℚ)) with hs
  have hws : (ow : ℚ) * s ≤ (w : ℚ) := by
    calc (ow : ℚ) * s ≤ (ow : ℚ) * ((w : ℚ) / (ow : ℚ)) :=
          mul_le_mul_of_nonneg_left (min_le_left _ _) (le_of_lt howQ)
    _ = (w : ℚ) := by field_simp
  have hhs : (oh : ℚ) * s ≤ (h : ℚ) := by
    calc (oh : ℚ) * s ≤ (oh : ℚ) * ((h : ℚ) / (oh : ℚ)) :=
          mul_le_mul_of_nonneg_left (min_le_right _ _) (le_of_lt hohQ)
    _ = (h : ℚ) := by field_simp
  refine ⟨floor_nonneg_of_nonneg (by positivity), floor_nonneg_of_nonneg (by positivity),
    floor_le_natCast hws, floor_le_natCast hhs, ?_, ?_⟩
  · have hrw : s * (ow : ℚ) = (ow : ℚ) * s := by ring
    rw [hrw]
    exact abs_floor_sub_lt_one _
  · have hrw : s * (oh : ℚ) = (oh : ℚ) * s := by ring
    rw [hrw]
    exact abs_floor_sub_lt_one _

/-- Claim C3: for every valid source image and every supported target box,
both resize implementations produce dimensions that fit within the box
with scale factor `min(targetW/origW, targetH/origH)`, matching the
source aspect ratio within one pixel of rounding error. -/
theorem C3_resize_fits :
    ∀ (ow oh w h : ℕ), 0 < ow → 0 < oh → (w, h) ∈ supportedBoxes →
      resizeFits (resize_dims_ai ow oh w h) ow oh w h ∧
      resizeFits (resize_dims_simple ow oh w h) ow oh w h := by
  intro ow oh w h how hoh hmem
  have hwh : 0 < w ∧ 0 < h := by
    simp only [supportedBoxes, List.mem_cons, List.not_mem_nil, or_false,
      Prod.mk.injEq] at hmem
    rcases hmem with ⟨rfl, rfl⟩ | ⟨rfl, rfl⟩ | ⟨rfl, rfl⟩ | ⟨rfl, rfl⟩ | ⟨rfl, rfl⟩ <;>
      exact ⟨by norm_num, by norm_num⟩
  exact ⟨resize_ai_fits ow oh w h how hoh hwh.1 hwh.2,
    resize_simple_fits ow oh w h how hoh hwh.1 hwh.2⟩

/-- Witness for C3_resize_fits at a concrete 100×100 source and the
1080p box. -/
theorem C3_witness :
    resizeFits (resize_dims_ai 100 100 1920 1080) 100 100 1920 1080 ∧
    resizeFits (resize_dims_simple 100 100 1920 1080) 100 100 1920 1080 :=
  C3_resize_fits 100 100 1920 1080 (by norm_num) (by norm_num) (by decide)

/-! ## Claim C4: crop boxes stay inside the image -/

/-- A horizontally centered full-height box of nonnegative width at most
the image width is contained in the image. -/
theorem fitBoxH_contained {w h : ℕ} {nw : ℤ} (h0 : 0 ≤ nw) (h1 : nw ≤ (w : ℤ)) :
    boxContained ⟨Int.fdiv ((w : ℤ) - nw) 2, 0, Int.fdiv ((w : ℤ) - nw) 2 + nw, (h : ℤ)⟩
      w h := by
  simp only [boxContained]
  rw [Int.fdiv_eq_ediv _ (by norm_num)]
  omega

/-- A vertically centered full-width box of nonnegative height at most
the image height is contained in the image. -/
theorem fitBoxV_contained {w h : ℕ} {nh : ℤ} (h0 : 0 ≤ nh) (h1 : nh ≤ (h : ℤ)) :
    boxContained ⟨0, Int.fdiv ((h : ℤ) - nh) 2, (w : ℤ), Int.fdiv ((h : ℤ) - nh) 2 + nh⟩
      w h := by
  simp only [boxContained]
  rw [Int.fdiv_eq_ediv _ (by norm_num)]
  omega

/-- A box centered in both axes with nonnegative dimensions at most the
image dimensions is contained in the image. -/
theorem centerBox_contained {w h : ℕ} {nw nh : ℤ} (h0 : 0 ≤ nw) (h1 : nw ≤ (w : ℤ))
    (h2 : 0 ≤ nh) (h3 : nh ≤ (h : ℤ)) :
    boxContained ⟨Int.fdiv ((w : ℤ) - nw) 2, Int.fdiv ((h : ℤ) - nh) 2,
      Int.fdiv ((w : ℤ) - nw) 2 + nw, Int.fdiv ((h : ℤ) - nh) 2 + nh⟩ w h := by
  simp only [boxContained]
  rw [Int.fdiv_eq_ediv _ (by norm_num), Int.fdiv_eq_ediv _ (by norm_num)]
  omega

/-- Every crop box of `AIImageProcessor.smart_crop` (any style string)
lies inside the source image. -/
theorem ai_crop_contained (w h : ℕ) (hw : 0 < w) (hh : 0 < h) (ctype : String) :
    boxContained (ai_smart_crop_box w h ctype) w h := by
  have hwQ : (0 : ℚ) < w := by exact_mod_cast hw
  have hhQ : (0 : ℚ) < h := by exact_mod_cast hh
  unfold ai_smart_crop_box
  split_ifs with h1 h2 h3 h4 h5 h6
  · exact centerBox_contained (by omega) (by omega) (by omega) (by omega)
  · -- portrait, width/height > 3/4: width narrowed to 3/4 of the height
    rw [gt_iff_lt, lt_div_iff hhQ] at h3
    have hlt : (h : ℚ) * (3 / 4) < (w : ℚ) := by linarith
    exact fitBoxH_contained (floor_nonneg_of_nonneg (by positivity))
      (le_of_lt (floor_lt_natCast hlt))
  · -- portrait, width/height ≤ 3/4: height cut to 4/3 of the width
    rw [gt_iff_lt, not_lt, div_le_iff hhQ] at h3
    have hle : (w : ℚ) * (4 / 3) ≤ (h : ℚ) := by linarith
    exact fitBoxV_contained (floor_nonneg_of_nonneg (by positivity))
      (floor_le_natCast hle)
  · -- landscape, width/height > 16/9
    rw [gt_iff_lt, lt_div_iff hhQ] at h5
    have hlt : (h : ℚ) * (16 / 9) < (w : ℚ) := by linarith
    exact fitBoxH_contained (floor_nonneg_of_nonneg (by positivity))
      (le_of_lt (floor_lt_natCast hlt))
  · -- landscape, width/height ≤ 16/9
    rw [gt_iff_lt, not_lt, div_le_iff hhQ] at h5
    have hle : (w : ℚ) * (9 / 16) ≤ (h : ℚ) := by linarith
    exact fitBoxV_contained (floor_nonneg_of_nonneg (by positivity))
      (floor_le_natCast hle)
  · -- golden-ratio branch, width/height > 1.618
    rw [gt_iff_lt, lt_div_iff hhQ] at h6
    have hlt : (h : ℚ) * (1618 / 1000) < (w : ℚ) := by linarith
    exact fitBoxH_contained (floor_nonneg_of_nonneg (by positivity))
      (le_of_lt (floor_lt_natCast hlt))
  · -- golden-ratio branch, width/height ≤ 1.618
    rw [gt_iff_lt, not_lt, div_le_iff hhQ] at h6
    have hle : (w : ℚ) / (1618 / 1000) ≤ (h : ℚ) := by
      rw [div_le_iff (by norm_num : (0 : ℚ) < 1618 / 1000)]
      linarith
    exact fitBoxV_contained (floor_nonneg_of_nonneg (by positivity))
      (floor_le_natCast hle)

/-- Every crop box of `SimpleImageProcessor.smart_crop` (any mode string)
lies inside the source image. -/
theorem simple_crop_contained (w h : ℕ) (hw : 0 < w) (hh : 0 < h) (mode : String) :
    boxContained (simple_smart_crop_box w h mode) w h := by
  unfold simple_smart_crop_box
  split_ifs with h1 h2
  · -- portrait
    have hnh0 : (0 : ℤ) ≤ min (h : ℤ) ⌊(w : ℚ) * (16 / 9)⌋ :=
      le_min (by positivity) (floor_nonneg_of_nonneg (by positivity))
    have hnhh : min (h : ℤ) ⌊(w : ℚ) * (16 / 9)⌋ ≤ (h : ℤ) := min_le_left _ _
    have hnhQ : ((min (h : ℤ) ⌊(w : ℚ) * (16 / 9)⌋ : ℤ) : ℚ) ≤ (w : ℚ) * (16 / 9) := by
      have := Int.le_floor.mp (min_le_right (h : ℤ) ⌊(w : ℚ) * (16 / 9)⌋)
      exact this
    have hnw0 : (0 : ℤ) ≤ ⌊((min (h : ℤ) ⌊(w : ℚ) * (16 / 9)⌋ : ℤ) : ℚ) * (9 / 16)⌋ := by
      apply floor_nonneg_of_nonneg
      have : (0 : ℚ) ≤ ((min (h : ℤ) ⌊(w : ℚ) * (16 / 9)⌋ : ℤ) : ℚ) := by
        exact_mod_cast hnh0
      positivity
    have hnww : ⌊((min (h : ℤ) ⌊(w : ℚ) * (16 / 9)⌋ : ℤ) : ℚ) * (9 / 16)⌋ ≤ (w : ℤ) := by
      apply floor_le_natCast
      calc ((min (h : ℤ) ⌊(w : ℚ) * (16 / 9)⌋ : ℤ) : ℚ) * (9 / 16)
          ≤ (w : ℚ) * (16 / 9) * (9 / 16) := by linarith
      _ = (w : ℚ) := by ring
    exact centerBox_contained hnw0 hnww hnh0 hnhh
  · -- landscape
    have hnw0 : (0 : ℤ) ≤ min (w : ℤ) ⌊(h : ℚ) * (16 / 9)⌋ :=
      le_min (by positivity) (floor_nonneg_of_nonneg (by positivity))
    have hnww : min (w : ℤ) ⌊(h : ℚ) * (16 / 9)⌋ ≤ (w : ℤ) := min_le_left _ _
    have hnwQ : ((min (w : ℤ) ⌊(h : ℚ) * (16 / 9)⌋ : ℤ) : ℚ) ≤ (h : ℚ) * (16 / 9) := by
      have := Int.le_floor.mp (min_le_right (w : ℤ) ⌊(h : ℚ) * (16 / 9)⌋)
      exact this
    have hnh0 : (0 : ℤ) ≤ ⌊((min (w : ℤ) ⌊(h : ℚ) * (16 / 9)⌋ : ℤ) : ℚ) * (9 / 16)⌋ := by
      apply floor_nonneg_of_nonneg
      have : (0 : ℚ) ≤ ((min (w : ℤ) ⌊(h : ℚ) * (16 / 9)⌋ : ℤ) : ℚ) := by
        exact_mod_cast hnw0
      positivity
    have hnhh : ⌊((min (w : ℤ) ⌊(h : ℚ) * (16 / 9)⌋ : ℤ) : ℚ) * (9 / 16)⌋ ≤ (h : ℤ) := by
      apply floor_le_natCast
      calc ((min (w : ℤ) ⌊(h : ℚ) * (16 / 9)⌋ : ℤ) : ℚ) * (9 / 16)
          ≤ (h : ℚ) * (16 / 9) * (9 / 16) := by linarith
      _ = (h : ℚ) := by ring
    exact centerBox_contained hnw0 hnww hnh0 hnhh
  · exact centerBox_contained (by omega) (by omega) (by omega) (by omega)

/-- Claim C4 as stated is false: the crop operation is not throw-free for
every valid image.  `AIImageProcessor.smart_crop` saves the cropped image
unconditionally as JPEG with no mode conversion (ai_apis.py 507), so for
a valid RGBA image the JPEG encoder raises and the function's final
`except ... raise` re-raises — here a concrete 2×2 RGBA image and the
`square` style. -/
theorem C4_counterexample :
    0 < demoImgRGBA.width ∧ 0 < demoImgRGBA.height ∧
    ai_smart_crop (some demoImgRGBA) "square" "t" "u" =
      Except.error "cannot write mode RGBA as JPEG" :=
  ⟨by decide, by decide, rfl⟩

/-- Claim C4, amended: for every valid input image and every crop style,
both implementations compute a crop region that is a same-or-smaller
bounding box fully inside the original image bounds, and the crop
computation itself never raises; but the operation as a whole is
throw-free only when the save encoder accepts the image's mode —
`AIImageProcessor.smart_crop` saves unconditionally as JPEG, so it
returns a path exactly for JPEG-writable modes (RGB, L, CMYK) and raises
for alpha-carrying or palette modes (RGBA, LA, P). -/
theorem C4_amended :
    ∀ (img : Img) (ts uid : String), 0 < img.width → 0 < img.height →
      ∀ style ∈ (["smart", "square", "portrait", "landscape"] : List String),
        boxContained (ai_smart_crop_box img.width img.height style)
          img.width img.height ∧
        boxContained (simple_smart_crop_box img.width img.height style)
          img.width img.height ∧
        (jpegWritable img.mode = true →
          ai_smart_crop (some img) style ts uid =
            Except.ok (ai_smart_crop_box img.width img.height style,
              aiOutputPath ("cropped_" ++ style) ts uid "jpg")) ∧
        (jpegWritable img.mode = false →
          ai_smart_crop (some img) style ts uid =
            Except.error ("cannot write mode " ++ modeName img.mode ++ " as JPEG")) := by
  intro img ts uid hw hh style hmem
  refine ⟨ai_crop_contained img.width img.height hw hh style,
    simple_crop_contained img.width img.height hw hh style, ?_, ?_⟩
  · intro hjw
    simp [ai_smart_crop, hjw]
  · intro hjw
    simp [ai_smart_crop, hjw]

/-- Witness for C4_amended at the concrete 2×2 RGB image and the square
style: the box is contained and the operation returns a path. -/
theorem C4_witness :
    boxContained (ai_smart_crop_box demoImg.width demoImg.height "square")
      demoImg.width demoImg.height ∧
    ai_smart_crop (some demoImg) "square" "t" "u" =
      Except.ok (ai_smart_crop_box demoImg.width demoImg.height "square",
        aiOutputPath ("cropped_" ++ "square") "t" "u" "jpg") := by
  have h := C4_amended demoImg "t" "u" (by decide) (by decide) "square" (by decide)
  exact ⟨h.1, h.2.2.1 rfl⟩

/-! ## Claim C5: crop aspect ratios -/

/-- `Int.fdiv` by two agrees with Euclidean division by two. -/
theorem fdiv2_eq_ediv (a : ℤ) : a.fdiv 2 = a / 2 := Int.fdiv_eq_ediv a (by norm_num)

/-- Two-sided integer bounds for a scaled floor: if `b * x = a` exactly,
then `b * ⌊x⌋` falls within `b` below `a`. -/
theorem floor_scale_bounds (x : ℚ) (a b : ℤ) (hb : 0 < b)
    (hx : (b : ℚ) * x = (a : ℚ)) : b * ⌊x⌋ ≤ a ∧ a < b * ⌊x⌋ + b := by
  have hbQ : (0 : ℚ) < b := by exact_mod_cast hb
  have h1 := Int.floor_le x
  have h2 := Int.lt_floor_add_one x
  constructor
  · have h3 : (b : ℚ) * (⌊x⌋ : ℚ) ≤ (a : ℚ) := by
      rw [← hx]
      exact mul_le_mul_of_nonneg_left h1 (le_of_lt hbQ)
    exact_mod_cast h3
  · have h4 : (a : ℚ) < (b : ℚ) * (⌊x⌋ : ℚ) + b := by
      rw [← hx]
      have h5 := (mul_lt_mul_left hbQ).mpr h2
      linarith
    exact_mod_cast h4

/-- The `"portrait"` arm of `ai_smart_crop_box`, exposed for case
analysis. -/
theorem ai_box_portrait_eq (w h : ℕ) : ai_smart_crop_box w h "portrait" =
    if (w : ℚ) / (h : ℚ) > 3 / 4 then
      ⟨Int.fdiv ((w : ℤ) - ⌊(h : ℚ) * (3 / 4)⌋) 2, 0,
       Int.fdiv ((w : ℤ) - ⌊(h : ℚ) * (3 / 4)⌋) 2 + ⌊(h : ℚ) * (3 / 4)⌋, (h : ℤ)⟩
    else
      ⟨0, Int.fdiv ((h : ℤ) - ⌊(w : ℚ) * (4 / 3)⌋) 2, (w : ℤ),
       Int.fdiv ((h : ℤ) - ⌊(w : ℚ) * (4 / 3)⌋) 2 + ⌊(w : ℚ) * (4 / 3)⌋⟩ := rfl

/-- The `"landscape"` arm of `ai_smart_crop_box`, exposed for case
analysis. -/
theorem ai_box_landscape_eq (w h : ℕ) : ai_smart_crop_box w h "landscape" =
    if (w : ℚ) / (h : ℚ) > 16 / 9 then
      ⟨Int.fdiv ((w : ℤ) - ⌊(h : ℚ) * (16 / 9)⌋) 2, 0,
       Int.fdiv ((w : ℤ) - ⌊(h : ℚ) * (16 / 9)⌋) 2 + ⌊(h : ℚ) * (16 / 9)⌋, (h : ℤ)⟩
    else
      ⟨0, Int.fdiv ((h : ℤ) - ⌊(w : ℚ) * (9 / 16)⌋) 2, (w : ℤ),
       Int.fdiv ((h : ℤ) - ⌊(w : ℚ) * (9 / 16)⌋) 2 + ⌊(w : ℚ) * (9 / 16)⌋⟩ := rfl

/-- The `"portrait"` arm of `simple_smart_crop_box`, exposed for case
analysis. -/
theorem simple_box_portrait_eq (w h : ℕ) : simple_smart_crop_box w h "portrait" =
    ⟨Int.fdiv ((w : ℤ) - ⌊((min (h : ℤ) ⌊(w : ℚ) * (16 / 9)⌋ : ℤ) : ℚ) * (9 / 16)⌋) 2,
     Int.fdiv ((h : ℤ) - min (h : ℤ) ⌊(w : ℚ) * (16 / 9)⌋) 2,
     Int.fdiv ((w : ℤ) - ⌊((min (h : ℤ) ⌊(w : ℚ) * (16 / 9)⌋ : ℤ) : ℚ) * (9 / 16)⌋) 2 +
       ⌊((min (h : ℤ) ⌊(w : ℚ) * (16 / 9)⌋ : ℤ) : ℚ) * (9 / 16)⌋,
     Int.fdiv ((h : ℤ) - min (h : ℤ) ⌊(w : ℚ) * (16 / 9)⌋) 2 +
       min (h : ℤ) ⌊(w : ℚ) * (16 / 9)⌋⟩ := rfl

/-- The `"landscape"` arm of `simple_smart_crop_box`, exposed for case
analysis. -/
theorem simple_box_landscape_eq (w h : ℕ) : simple_smart_crop_box w h "landscape" =
    ⟨Int.fdiv ((w : ℤ) - min (w : ℤ) ⌊(h : ℚ) * (16 / 9)⌋) 2,
     Int.fdiv ((h : ℤ) - ⌊((min (w : ℤ) ⌊(h : ℚ) * (16 / 9)⌋ : ℤ) : ℚ) * (9 / 16)⌋) 2,
     Int.fdiv ((w : ℤ) - min (w : ℤ) ⌊(h : ℚ) * (16 / 9)⌋) 2 +
       min (w : ℤ) ⌊(h : ℚ) * (16 / 9)⌋,
     Int.fdiv ((h : ℤ) - ⌊((min (w : ℤ) ⌊(h : ℚ) * (16 / 9)⌋ : ℤ) : ℚ) * (9 / 16)⌋) 2 +
       ⌊((min (w : ℤ) ⌊(h : ℚ) * (16 / 9)⌋ : ℤ) : ℚ) * (9 / 16)⌋⟩ := rfl

/-- The `"square"` arm of `ai_smart_crop_box`, exposed for rewriting. -/
theorem ai_box_square_eq (w h : ℕ) : ai_smart_crop_box w h "square" =
    ⟨Int.fdiv ((w : ℤ) - min (w : ℤ) (h : ℤ)) 2,
     Int.fdiv ((h : ℤ) - min (w : ℤ) (h : ℤ)) 2,
     Int.fdiv ((w : ℤ) - min (w : ℤ) (h : ℤ)) 2 + min (w : ℤ) (h : ℤ),
     Int.fdiv ((h : ℤ) - min (w : ℤ) (h : ℤ)) 2 + min (w : ℤ) (h : ℤ)⟩ := rfl

/-- The `"square"` arm of `simple_smart_crop_box`, exposed for
rewriting. -/
theorem simple_box_square_eq (w h : ℕ) : simple_smart_crop_box w h "square" =
    ⟨Int.fdiv ((w : ℤ) - min (w : ℤ) (h : ℤ)) 2,
     Int.fdiv ((h : ℤ) - min (w : ℤ) (h : ℤ)) 2,
     Int.fdiv ((w : ℤ) - min (w : ℤ) (h : ℤ)) 2 + min (w : ℤ) (h : ℤ),
     Int.fdiv ((h : ℤ) - min (w : ℤ) (h : ℤ)) 2 + min (w : ℤ) (h : ℤ)⟩ := rfl

/-- `AIImageProcessor.smart_crop` portrait boxes have the 3:4 aspect
ratio, up to integer rounding. -/
theorem ai_portrait_ratio (w h : ℕ) (hw : 0 < w) (hh : 0 < h) :
    |4 * boxW (ai_smart_crop_box w h "portrait") -
      3 * boxH (ai_smart_crop_box w h "portrait")| < 4 := by
  rw [ai_box_portrait_eq]
  split_ifs with hc
  · have hb := floor_scale_bounds ((h : ℚ) * (3 / 4)) (3 * (h : ℤ)) 4 (by norm_num)
      (by push_cast; ring)
    simp only [boxW, boxH]
    rw [abs_lt]
    omega
  · have hb := floor_scale_bounds ((w : ℚ) * (4 / 3)) (4 * (w : ℤ)) 3 (by norm_num)
      (by push_cast; ring)
    simp only [boxW, boxH]
    rw [abs_lt]
    omega

/-- `SimpleImageProcessor.smart_crop` portrait boxes have the 9:16 aspect
ratio, up to integer rounding. -/
theorem simple_portrait_ratio (w h : ℕ) (hw : 0 < w) (hh : 0 < h) :
    |16 * boxW (simple_smart_crop_box w h "portrait") -
      9 * boxH (simple_smart_crop_box w h "portrait")| < 16 := by
  rw [simple_box_portrait_eq]
  have hb := floor_scale_bounds (((min (h : ℤ) ⌊(w : ℚ) * (16 / 9)⌋ : ℤ) : ℚ) * (9 / 16))
    (9 * min (h : ℤ) ⌊(w : ℚ) * (16 / 9)⌋) 16 (by norm_num) (by push_cast; ring)
  simp only [boxW, boxH]
  rw [abs_lt]
  omega

/-- `AIImageProcessor.smart_crop` landscape boxes have the 16:9 aspect
ratio, up to integer rounding. -/
theorem ai_landscape_ratio (w h : ℕ) (hw : 0 < w) (hh : 0 < h) :
    |9 * boxW (ai_smart_crop_box w h "landscape") -
      16 * boxH (ai_smart_crop_box w h "landscape")| < 16 := by
  rw [ai_box_landscape_eq]
  split_ifs with hc
  · have hb := floor_scale_bounds ((h : ℚ) * (16 / 9)) (16 * (h : ℤ)) 9 (by norm_num)
      (by push_cast; ring)
    simp only [boxW, boxH]
    rw [abs_lt]
    omega
  · have hb := floor_scale_bounds ((w : ℚ) * (9 / 16)) (9 * (w : ℤ)) 16 (by norm_num)
      (by push_cast; ring)
    simp only [boxW, boxH]
    rw [abs_lt]
    omega

/-- `SimpleImageProcessor.smart_crop` landscape boxes have the 16:9
aspect ratio, up to integer rounding. -/
theorem simple_landscape_ratio (w h : ℕ) (hw : 0 < w) (hh : 0 < h) :
    |9 * boxW (simple_smart_crop_box w h "landscape") -
      16 * boxH (simple_smart_crop_box w h "landscape")| < 16 := by
  rw [simple_box_landscape_eq]
  have hb := floor_scale_bounds (((min (w : ℤ) ⌊(h : ℚ) * (16 / 9)⌋ : ℤ) : ℚ) * (9 / 16))
    (9 * min (w : ℤ) ⌊(h : ℚ) * (16 / 9)⌋) 16 (by norm_num) (by push_cast; ring)
  simp only [boxW, boxH]
  rw [abs_lt]
  omega

/-- Claim C5 as stated is false: `AIImageProcessor.smart_crop` crops
`portrait` to a 3:4 box, not 9:16.  On a 1600×1600 image it produces the
centered box (200, 0, 1400, 1600), i.e. 1200×1600 = 3:4; a 9:16 portrait
crop would be 900×1600 (the deviation, 4800, is far beyond any integer
rounding). -/
theorem C5_counterexample :
    ai_smart_crop_box 1600 1600 "portrait" = ⟨200, 0, 1400, 1600⟩ ∧
    16 * boxW (ai_smart_crop_box 1600 1600 "portrait") -
        9 * boxH (ai_smart_crop_box 1600 1600 "portrait") = 4800 ∧
    4 * boxW (ai_smart_crop_box 1600 1600 "portrait") -
        3 * boxH (ai_smart_crop_box 1600 1600 "portrait") = 0 := by
  have hfl : ⌊(((1600 : ℕ) : ℚ)) * (3 / 4)⌋ = 1200 := by
    rw [Int.floor_eq_iff]
    norm_num
  have he : ai_smart_crop_box 1600 1600 "portrait" = ⟨200, 0, 1400, 1600⟩ := by
    rw [ai_box_portrait_eq, if_pos (by norm_num : ((1600 : ℕ) : ℚ) / ((1600 : ℕ) : ℚ) > 3 / 4),
      hfl]
    rw [CropBox.mk.injEq]
    simp only [fdiv2_eq_ediv]
    exact ⟨by omega, trivial, by omega, by omega⟩
  refine ⟨he, ?_, ?_⟩ <;> (rw [he]; simp [boxW, boxH])

/-- Claim C5, amended: in both implementations `square` is a centered
`min(w,h) × min(w,h)` crop and `landscape` is a centered 16:9 crop (up to
integer rounding); `portrait` is a centered 9:16 crop in
`SimpleImageProcessor.smart_crop` but a centered 3:4 crop in
`AIImageProcessor.smart_crop`.  Every such crop is centered: its left/top
offsets are half the removed width/height, rounded down. -/
theorem C5_amended :
    ∀ (w h : ℕ), 0 < w → 0 < h →
      (boxW (ai_smart_crop_box w h "square") = min (w : ℤ) (h : ℤ) ∧
        boxH (ai_smart_crop_box w h "square") = min (w : ℤ) (h : ℤ)) ∧
      (boxW (simple_smart_crop_box w h "square") = min (w : ℤ) (h : ℤ) ∧
        boxH (simple_smart_crop_box w h "square") = min (w : ℤ) (h : ℤ)) ∧
      |4 * boxW (ai_smart_crop_box w h "portrait") -
        3 * boxH (ai_smart_crop_box w h "portrait")| < 4 ∧
      |16 * boxW (simple_smart_crop_box w h "portrait") -
        9 * boxH (simple_smart_crop_box w h "portrait")| < 16 ∧
      |9 * boxW (ai_smart_crop_box w h "landscape") -
        16 * boxH (ai_smart_crop_box w h "landscape")| < 16 ∧
      |9 * boxW (simple_smart_crop_box w h "landscape") -
        16 * boxH (simple_smart_crop_box w h "landscape")| < 16 ∧
      (∀ s ∈ (["square", "portrait", "landscape"] : List String),
        ((ai_smart_crop_box w h s).left =
            Int.fdiv ((w : ℤ) - boxW (ai_smart_crop_box w h s)) 2 ∧
          (ai_smart_crop_box w h s).top =
            Int.fdiv ((h : ℤ) - boxH (ai_smart_crop_box w h s)) 2) ∧
        ((simple_smart_crop_box w h s).left =
            Int.fdiv ((w : ℤ) - boxW (simple_smart_crop_box w h s)) 2 ∧
          (simple_smart_crop_box w h s).top =
            Int.fdiv ((h : ℤ) - boxH (simple_smart_crop_box w h s)) 2)) := by
  intro w h hw hh
  refine ⟨⟨by rw [ai_box_square_eq]; simp only [boxW]; omega,
           by rw [ai_box_square_eq]; simp only [boxH]; omega⟩,
          ⟨by rw [simple_box_square_eq]; simp only [boxW]; omega,
           by rw [simple_box_square_eq]; simp only [boxH]; omega⟩,
          ai_portrait_ratio w h hw hh, simple_portrait_ratio w h hw hh,
          ai_landscape_ratio w h hw hh, simple_landscape_ratio w h hw hh, ?_⟩
  intro s hs
  simp only [List.mem_cons, List.not_mem_nil, or_false] at hs
  rcases hs with rfl | rfl | rfl
  · refine ⟨?_, ?_⟩ <;>
      (first
        | rw [ai_box_square_eq]
        | rw [simple_box_square_eq]) <;>
      (refine ⟨?_, ?_⟩ <;>
        (simp only [boxW, boxH]
         simp only [fdiv2_eq_ediv]
         omega))
  · refine ⟨?_, ⟨?_, ?_⟩⟩
    · rw [ai_box_portrait_eq]
      split_ifs with hc <;>
        (refine ⟨?_, ?_⟩ <;>
          (simp only [boxW, boxH]
           simp only [fdiv2_eq_ediv]
           omega))
    · rw [simple_box_portrait_eq]
      simp only [boxW, boxH]
      simp only [fdiv2_eq_ediv]
      omega
    · rw [simple_box_portrait_eq]
      simp only [boxW, boxH]
      simp only [fdiv2_eq_ediv]
      omega
  · refine ⟨?_, ⟨?_, ?_⟩⟩
    · rw [ai_box_landscape_eq]
      split_ifs with hc <;>
        (refine ⟨?_, ?_⟩ <;>
          (simp only [boxW, boxH]
           simp only [fdiv2_eq_ediv]
           omega))
    · rw [simple_box_landscape_eq]
      simp only [boxW, boxH]
      simp only [fdiv2_eq_ediv]
      omega
    · rw [simple_box_landscape_eq]
      simp only [boxW, boxH]
      simp only [fdiv2_eq_ediv]
      omega

/-- Witness for C5_amended at a concrete 1600×1600 image. -/
theorem C5_witness :
    |4 * boxW (ai_smart_crop_box 1600 1600 "portrait") -
      3 * boxH (ai_smart_crop_box 1600 1600 "portrait")| < 4 ∧
    |16 * boxW (simple_smart_crop_box 1600 1600 "portrait") -
      9 * boxH (simple_smart_crop_box 1600 1600 "portrait")| < 16 :=
  ⟨((C5_amended 1600 1600 (by norm_num) (by norm_num)).2.2.1),
   ((C5_amended 1600 1600 (by norm_num) (by norm_num)).2.2.2.1)⟩

/-! ## Claim C10: operation frame — fresh output in `processed/`, input
untouched -/

/-- `os.path.join("processed", f)` literally starts with `"processed/"`. -/
theorem pyJoin_processed (f : String) : pyJoin "processed" f = "processed/" ++ f := by
  apply String.ext
  simp only [pyJoin, String.data_append]
  rfl

/-- Every `AIImageProcessor` operation run satisfies the frame property. -/
theorem opFrameOk_aiRun (input pfx ts uid ext : String) :
    opFrameOk (aiOpRun input pfx ts uid ext) input := by
  have ht : strHasPfx (aiOpRun input pfx ts uid ext).output "processed/" = true := by
    show strHasPfx (pyJoin "processed" (aiGenerateFilename pfx ts uid ext))
      "processed/" = true
    rw [pyJoin_processed]
    exact strHasPfx_append _ _
  refine ⟨rfl, rfl, ht, ?_⟩
  intro hin heq
  rw [← heq] at hin
  rw [ht] at hin
  exact Bool.noConfusion hin

/-- Every `SimpleImageProcessor` operation run satisfies the frame
property. -/
theorem opFrameOk_simpleRun (p : PyPath) (sfx : String) (extension : Option String) :
    opFrameOk (simpleOpRun p sfx extension) p.render := by
  have ht : strHasPfx (simpleOpRun p sfx extension).output "processed/" = true := by
    show strHasPfx (pyJoin "processed" _) "processed/" = true
    rw [pyJoin_processed]
    exact strHasPfx_append _ _
  refine ⟨rfl, rfl, ht, ?_⟩
  intro hin heq
  rw [← heq] at hin
  rw [ht] at hin
  exact Bool.noConfusion hin

/-- Claim C10: every image operation of both processors deletes nothing,
writes exactly one newly generated file inside `processed/`, and returns
that path; for every input outside `processed/` — which covers all paths
the routers supply, since uploads land under `uploads/` — the returned
path differs from the input path, so the input file is neither modified
nor deleted.  (For an input already inside `processed/`, distinctness
rests on the freshness of the timestamp/uuid oracle and is not claimed
here.) -/
theorem C10_frame :
    ∀ (input ctype res target fmt ts uid ext : String) (p : PyPath) (nw nh : ℕ),
      opFrameOk (ai_resize_run input ts uid) input ∧
      opFrameOk (ai_smart_crop_run input ctype ts uid) input ∧
      opFrameOk (ai_enhance_quality_run input res ts uid) input ∧
      opFrameOk (ai_enhance_quality_ai_run input res ts uid) input ∧
      opFrameOk (ai_convert_format_run input target ts uid ext) input ∧
      opFrameOk (ai_remove_bg_local_run input ts uid) input ∧
      opFrameOk (ai_generate_bg_local_run input ts uid) input ∧
      opFrameOk (simple_resize_run p nw nh) p.render ∧
      opFrameOk (simple_crop_run p ctype) p.render ∧
      opFrameOk (simple_remove_bg_run p) p.render ∧
      opFrameOk (simple_generate_bg_run p) p.render ∧
      opFrameOk (simple_enhance_run p) p.render ∧
      opFrameOk (simple_convert_run p fmt) p.render := by
  intro input ctype res target fmt ts uid ext p nw nh
  exact ⟨opFrameOk_aiRun input "resized" ts uid "jpg",
    opFrameOk_aiRun input ("cropped_" ++ ctype) ts uid "jpg",
    opFrameOk_aiRun input ("enhanced_" ++ res) ts uid "jpg",
    opFrameOk_aiRun input ("ai_enhanced_" ++ res) ts uid "jpg",
    opFrameOk_aiRun input ("converted_" ++ target) ts uid ext,
    opFrameOk_aiRun input "bg_removed_local" ts uid "png",
    opFrameOk_aiRun input "bg_generated_local" ts uid "jpg",
    opFrameOk_simpleRun p ("resized_" ++ toString nw ++ "x" ++ toString nh) none,
    opFrameOk_simpleRun p ("cropped_" ++ ctype) none,
    opFrameOk_simpleRun p "no_bg" (some "png"),
    opFrameOk_simpleRun p "new_bg" none,
    opFrameOk_simpleRun p "enhanced" none,
    opFrameOk_simpleRun p "converted" (some fmt)⟩

/-- Witness for C10_frame: at a concrete uploads-directory input, the
resize operation's output path differs from its input path. -/
theorem C10_witness :
    (ai_resize_run "uploads/temp_1.jpg" "20250101_000000" "abcd1234").output ≠
      "uploads/temp_1.jpg" ∧
    (simple_convert_run ⟨"uploads/", "temp_1", ".jpg"⟩ "png").output ≠
      (⟨"uploads/", "temp_1", ".jpg"⟩ : PyPath).render := by
  have h := C10_frame "uploads/temp_1.jpg" "smart" "4k" "jpeg" "png" "20250101_000000"
    "abcd1234" "jpg" ⟨"uploads/", "temp_1", ".jpg"⟩ 100 100
  exact ⟨h.1.2.2.2 rfl, (h.2.2.2.2.2.2.2.2.2.2.2.2).2.2.2 rfl⟩

end ImgBot
